import Mathlib

/-!
Shallow embedding of the checkout / payment / order-lookup client logic of
the shayna cosmetics storefront: the PaymentPage component (cart loading,
product-detail fetch, pricing, payment submission) and the MyOrdersPage
component (order lookup), together with the record types they consume.
JS numbers are modelled as exact rationals, JS `undefined` as `Option.none`,
fallible network calls as `Except`-valued oracles, and the browser state
(component state, local storage, navigation, issued requests) as an explicit
state record transformed by the event handlers.
-/

namespace ShaynaCosmetics

/-! ### Record types, from src/types/type.ts -/

structure CartItem where
  cosmetic_id : Nat
  slug : String
  quantity : Nat
  deriving DecidableEq, Repr

/-- Product detail record. The source interface also carries presentation
fields (duration, is_popular, category, brand, thumbnail, benefits, photos,
testimonials, about) that no modelled flow ever reads; they are omitted. -/
structure Cosmetic where
  id : Nat
  price : ℚ
  name : String
  slug : String
  deriving DecidableEq, Repr

/-- Booking draft record, field for field as declared in the source:
note the postal-code field is declared `post_codes` (plural). -/
structure BookingFormData where
  name : String
  email : String
  phone : String
  post_codes : String
  address : String
  city : String
  deriving DecidableEq, Repr

/-- Order-status payload; only identity fields are modelled because the
lookup flow never reads the others, it only forwards the payload. -/
structure BookingDetails where
  id : Nat
  booking_trx_id : String
  email : String
  deriving DecidableEq, Repr

/-! ### JS-runtime helpers -/

/-- An uploaded file, identified by its name. -/
structure File where
  name : String
  deriving DecidableEq, Repr

/-- JS string conversion of a possibly-undefined string value, as performed
by template literals and by FormData.append: undefined prints "undefined". -/
def jsString : Option String → String
  | some s => s
  | none => "undefined"

/-- The own properties of the JS object behind a parsed BookingFormData:
exactly the keys the interface declares, with their values. -/
def BookingFormData.fields (bd : BookingFormData) : List (String × String) :=
  [("name", bd.name), ("email", bd.email), ("phone", bd.phone),
   ("post_codes", bd.post_codes), ("address", bd.address), ("city", bd.city)]

/-- JS property access on a parsed BookingFormData object: a declared key
yields its value, any other key yields undefined. -/
def BookingFormData.get (bd : BookingFormData) (key : String) : Option String :=
  (bd.fields.find? (fun p => p.1 == key)).map Prod.snd

/-! ### PaymentPage local state types (src/unnamed/part_000) -/

/-- One entry of `formData.cosmetic_ids`: `{ id: number; quantity: number }`. -/
structure IdQuantity where
  id : Nat
  quantity : Nat
  deriving DecidableEq, Repr

/-- The PaymentPage-local `FormData` type: `{ proof, cosmetic_ids }`. -/
structure FormData where
  proof : Option File
  cosmetic_ids : List IdQuantity
  deriving DecidableEq, Repr

/-- A zod validation issue: the failing path and its message. -/
structure ZodIssue where
  path : List String
  message : String
  deriving DecidableEq, Repr

/-- The browser local storage, restricted to the two keys the flows use:
"cart" (a JSON list of CartItem) and "bookingData" (a JSON BookingFormData).
`none` models an absent key. -/
structure Storage where
  cart : Option (List CartItem)
  bookingData : Option BookingFormData
  deriving DecidableEq, Repr

/-- One entry of a multipart form body: either a binary file part or a
text part. -/
inductive FormValue where
  | file : File → FormValue
  | text : String → FormValue
  deriving DecidableEq, Repr

/-- A network request issued by the PaymentPage. -/
inductive PaymentRequest where
  | getCosmetic : String → PaymentRequest
  | postBookingTransaction : List (String × FormValue) → PaymentRequest
  deriving DecidableEq, Repr

/-- The body fragment `response.data.data` of the transaction-creation
response; both fields may be absent. -/
structure RespData where
  booking_trx_id : Option String
  email : Option String
  deriving DecidableEq, Repr

/-- A resolved axios response for the transaction-creation request. -/
structure PostResponse where
  status : Nat
  data : RespData
  deriving DecidableEq, Repr

/-- The full observable state of the PaymentPage: the React state hooks,
plus the local storage, the navigation target if `navigate` was called,
and the log of issued network requests. -/
structure PaymentState where
  formData : FormData
  cart : List CartItem
  cosmeticDetails : List Cosmetic
  bookingData : Option BookingFormData
  formErrors : List ZodIssue
  loading : Bool
  successMessage : Option String
  error : Option String
  fileName : Option String
  storage : Storage
  navigation : Option String
  requests : List PaymentRequest
  deriving DecidableEq, Repr

/-! ### Pricing calculator (src/unnamed/part_000 lines 76-84) -/

def TAX_RATE : ℚ := 0.11

/-- `cosmeticDetails.reduce((acc, cosmetic) => { const cartItem =
cart.find(item => item.cosmetic_id === cosmetic.id); return acc +
(cartItem ? cosmetic.price * cartItem.quantity : 0); }, 0)`. -/
def subtotal (cart : List CartItem) (cosmeticDetails : List Cosmetic) : ℚ :=
  cosmeticDetails.foldl
    (fun acc cosmetic =>
      match cart.find? (fun item => item.cosmetic_id == cosmetic.id) with
      | some cartItem => acc + cosmetic.price * cartItem.quantity
      | none => acc + 0)
    0

/-- `cart.reduce((acc, item) => acc + item.quantity, 0)`. -/
def totalQuantity (cart : List CartItem) : Nat :=
  cart.foldl (fun acc item => acc + item.quantity) 0

/-- `const tax = subtotal * TAX_RATE`. -/
def tax (cart : List CartItem) (cosmeticDetails : List Cosmetic) : ℚ :=
  subtotal cart cosmeticDetails * TAX_RATE

/-- `const total = subtotal + tax`. -/
def total (cart : List CartItem) (cosmeticDetails : List Cosmetic) : ℚ :=
  subtotal cart cosmeticDetails + tax cart cosmeticDetails

/-! ### Product detail fetcher (src/unnamed/part_000 lines 33-57) -/

/-- `Promise.all` over already-settled outcomes: rejects when any input
rejects, otherwise resolves with all values in order. -/
def promiseAll {α : Type} : List (Except Unit α) → Except Unit (List α)
  | [] => Except.ok []
  | Except.error e :: _ => Except.error e
  | Except.ok a :: rest =>
    match promiseAll rest with
    | Except.ok as => Except.ok (a :: as)
    | Except.error e => Except.error e

/-- `fetchCosmeticDetails`: issues `GET /cosmetic/{slug}` for every cart
item, joins with Promise.all; on success stores the details, stops loading
and copies (id, quantity) pairs into `formData.cosmetic_ids`; on any
failure sets the page error and stops loading. The `fetch` oracle gives
each request's outcome, keyed by slug. -/
def fetchCosmeticDetails (fetch : String → Except Unit Cosmetic)
    (cartItems : List CartItem) (s : PaymentState) : PaymentState :=
  let s1 := { s with requests :=
    s.requests ++ cartItems.map (fun (item : CartItem) => PaymentRequest.getCosmetic item.slug) }
  match promiseAll (cartItems.map (fun item => fetch item.slug)) with
  | Except.ok fetchedDetails =>
    let s2 := { s1 with cosmeticDetails := fetchedDetails, loading := false }
    let cosmeticIdsWithQuantities := cartItems.map
      (fun cartItem => IdQuantity.mk cartItem.cosmetic_id cartItem.quantity)
    { s2 with formData := { s2.formData with cosmetic_ids := cosmeticIdsWithQuantities } }
  | Except.error _ =>
    { s1 with error := some "Failed to fetch cosmetic details", loading := false }

/-- The component's initial hook state, before the mount effect runs. -/
def initialPaymentState (storage : Storage) : PaymentState :=
  { formData := { proof := none, cosmetic_ids := [] }
    cart := []
    cosmeticDetails := []
    bookingData := none
    formErrors := []
    loading := true
    successMessage := none
    error := none
    fileName := none
    storage := storage
    navigation := none
    requests := [] }

/-- The mount `useEffect` (src/unnamed/part_000 lines 59-74): reads both
storage keys, keeps the booking draft if present, and when the cart key is
absent or the parsed cart is empty navigates home and returns; otherwise
stores the cart and starts the detail fetch. -/
def pageLoad (fetch : String → Except Unit Cosmetic) (storage : Storage) :
    PaymentState :=
  let s0 := initialPaymentState storage
  let s1 :=
    match storage.bookingData with
    | some savedBookingData => { s0 with bookingData := some savedBookingData }
    | none => s0
  match storage.cart with
  | none => { s1 with navigation := some "/" }
  | some cartItems =>
    if cartItems.length == 0 then { s1 with navigation := some "/" }
    else fetchCosmeticDetails fetch cartItems { s1 with cart := cartItems }

/-! ### Validation schemas

The schemas live in src/types/validationBooking, which is not among the
provided sources; they are modelled from the spec. -/

/-- Modelled from the spec: `paymentSchema` (src/types/validationBooking is
missing from the sources). Per the spec the proof file's presence is
required for a payment submission; on failure the issue list names the
failing field. -/
def paymentSchema_safeParse (formData : FormData) :
    Except (List ZodIssue) FormData :=
  match formData.proof with
  | none => Except.error [{ path := ["proof"], message := "Proof of payment is required" }]
  | some _ => Except.ok formData

/-- The order-lookup form data: `{ email, booking_trx_id }`. -/
structure OrderQuery where
  email : String
  booking_trx_id : String
  deriving DecidableEq, Repr

/-- Modelled from the spec: basic syntactic email validity (a non-empty
local part, a single `@`, and a non-empty domain containing a dot),
standing in for the email rule of the missing validation module. -/
def isValidEmail (s : String) : Bool :=
  let cs := s.toList
  let localPart := cs.takeWhile (fun c => c != '@')
  match cs.dropWhile (fun c => c != '@') with
  | '@' :: domain =>
    !localPart.isEmpty && !domain.isEmpty && domain.contains '.' && !domain.contains '@'
  | _ => false

/-- Modelled from the spec: `viewBookingSchema` (src/types/validationBooking
is missing from the sources). Per the spec the lookup needs a transaction id
and a syntactically valid email; each failing field contributes one issue. -/
def viewBookingSchema_safeParse (q : OrderQuery) :
    Except (List ZodIssue) OrderQuery :=
  let issues : List ZodIssue :=
    (if q.booking_trx_id.isEmpty then
      [{ path := ["booking_trx_id"], message := "Booking TRX ID is required" }]
     else []) ++
    (if !(isValidEmail q.email) then
      [{ path := ["email"], message := "Email is not valid" }]
     else [])
  if issues.isEmpty then Except.ok q else Except.error issues

/-! ### Payment submission (src/unnamed/part_000 lines 95-165) -/

/-- Builds the multipart `submissionData` exactly as the source appends it:
the proof file when present, the six contact text fields when a booking
draft exists (each read off the draft object by JS property access, so the
source's `bookingData.post_code` reads a key the record does not declare),
then indexed `cosmetic_ids[i][id]` / `cosmetic_ids[i][quantity]` pairs. -/
def buildSubmissionData (formData : FormData)
    (bookingData : Option BookingFormData) : List (String × FormValue) :=
  let withProof :=
    match formData.proof with
    | some f => [("proof", FormValue.file f)]
    | none => []
  let withBooking :=
    match bookingData with
    | some bd =>
      withProof ++
        [("name", FormValue.text (jsString (bd.get "name"))),
         ("email", FormValue.text (jsString (bd.get "email"))),
         ("phone", FormValue.text (jsString (bd.get "phone"))),
         ("address", FormValue.text (jsString (bd.get "address"))),
         ("city", FormValue.text (jsString (bd.get "city"))),
         ("post_code", FormValue.text (jsString (bd.get "post_code")))]
    | none => withProof
  withBooking ++
    (formData.cosmetic_ids.enum.map (fun p =>
      [("cosmetic_ids[" ++ toString p.1 ++ "][id]",
        FormValue.text (toString p.2.id)),
       ("cosmetic_ids[" ++ toString p.1 ++ "][quantity]",
        FormValue.text (toString p.2.quantity))])).flatten

/-- The PaymentPage submit handler. Validates `formData`; on failure only
stores the issues. Otherwise clears the issues, builds the multipart body,
posts it (the `post` oracle gives the outcome): on a resolved 200/201 it
stores the success message, removes both storage keys, resets the form
data, stops loading and navigates to the confirmation route built from the
(possibly undefined) transaction id and email; on any other resolved
status it only stops loading; on a rejected request it stops loading and
clears the issues. -/
def PaymentPage.handleSubmit
    (post : List (String × FormValue) → Except Unit PostResponse)
    (s : PaymentState) : PaymentState :=
  match paymentSchema_safeParse s.formData with
  | Except.error issues => { s with formErrors := issues }
  | Except.ok _ =>
    let s1 := { s with formErrors := [] }
    let submissionData := buildSubmissionData s1.formData s1.bookingData
    let s2 := { s1 with
      loading := true,
      requests := s1.requests ++ [PaymentRequest.postBookingTransaction submissionData] }
    match post submissionData with
    | Except.ok response =>
      if response.status == 200 || response.status == 201 then
        let bookingTrxId := response.data.booking_trx_id
        let email := response.data.email
        { s2 with
          successMessage := some "Payment proof uploaded successfully",
          storage := { s2.storage with cart := none, bookingData := none },
          formData := { proof := none, cosmetic_ids := [] },
          loading := false,
          navigation := some ("/booking-finished?trx_id=" ++ jsString bookingTrxId
            ++ "&email=" ++ jsString email) }
      else
        { s2 with loading := false }
    | Except.error _ =>
      { s2 with loading := false, formErrors := [] }

/-! ### Order lookup (src/src/pages/MyOrdersPage.tsx lines 27-61) -/

/-- An error response attached to a rejected axios request. -/
structure ErrResponse where
  status : Nat
  deriving DecidableEq, Repr

/-- A rejected axios request: `response` is absent on a network error. -/
structure AxiosError where
  response : Option ErrResponse
  deriving DecidableEq, Repr

/-- A resolved response of `POST /check-booking`: `data` models the body
fragment `response.data.data`, absent when the body lacks it. -/
structure CheckResponse where
  status : Nat
  data : Option BookingDetails
  deriving DecidableEq, Repr

/-- The in-memory navigation state handed to the results route. -/
structure OrdersNav where
  route : String
  bookingDetails : Option BookingDetails
  notFound : Bool
  deriving DecidableEq, Repr

/-- The observable state of MyOrdersPage: hooks, navigation target and
issued `/check-booking` request payloads. -/
structure OrdersState where
  formData : OrderQuery
  formErrors : List ZodIssue
  loading : Bool
  navigation : Option OrdersNav
  requests : List OrderQuery
  deriving DecidableEq, Repr

/-- The MyOrdersPage submit handler. Validates; on failure only stores the
issues. Otherwise clears issues, starts loading and posts the query: a
resolved 200 with a body navigates to the found results view; any other
resolved response navigates to the not-found results view; a rejected
request navigates to the not-found view only when it carries a 404
response, and otherwise changes nothing; `finally` stops loading. -/
def MyOrdersPage.handleSubmit
    (post : OrderQuery → Except AxiosError CheckResponse)
    (s : OrdersState) : OrdersState :=
  match viewBookingSchema_safeParse s.formData with
  | Except.error issues => { s with formErrors := issues }
  | Except.ok _ =>
    let s1 := { s with
      formErrors := [],
      loading := true,
      requests := s.requests ++ [s.formData] }
    let s2 :=
      match post s1.formData with
      | Except.ok response =>
        if response.status == 200 && response.data.isSome then
          { s1 with navigation := some (OrdersNav.mk "/my-booking" response.data false) }
        else
          { s1 with navigation := some (OrdersNav.mk "/my-booking" none true) }
      | Except.error err =>
        match err.response with
        | some errResponse =>
          if errResponse.status == 404 then
            { s1 with navigation := some (OrdersNav.mk "/my-booking" none true) }
          else s1
        | none => s1
    { s2 with loading := false }

/-! ### Concrete fixtures used by witnesses and counterexamples -/

/-- The cart of the spec's worked pricing example. -/
def exampleCart : List CartItem := [⟨1, "x", 2⟩]

/-- The fetched detail of the spec's worked pricing example. -/
def exampleCosmetic : Cosmetic := ⟨1, 100000, "x name", "x"⟩

def exampleFile : File := ⟨"proof.png"⟩

def exampleBooking : BookingFormData :=
  ⟨"A", "a@b.com", "0812", "12345", "Street 1", "Jakarta"⟩

/-- A PaymentPage state ready to submit: populated storage, fetched detail,
chosen proof file and cart-derived cosmetic_ids. -/
def examplePaymentState : PaymentState :=
  { formData := ⟨some exampleFile, [⟨1, 2⟩]⟩
    cart := exampleCart
    cosmeticDetails := [exampleCosmetic]
    bookingData := some exampleBooking
    formErrors := []
    loading := false
    successMessage := none
    error := none
    fileName := some "proof.png"
    storage := ⟨some exampleCart, some exampleBooking⟩
    navigation := none
    requests := [] }

/-- A MyOrdersPage state holding a validated query. -/
def exampleOrdersState : OrdersState :=
  { formData := ⟨"a@b.com", "TRX1"⟩
    formErrors := []
    loading := false
    navigation := none
    requests := [] }

/-! ### Helper lemmas -/

/-- Folding `acc + f x` over a list adds the mapped sum to the seed. -/
theorem foldl_add_map {α M : Type} [AddCommMonoid M] (f : α → M) :
    ∀ (l : List α) (a : M),
      l.foldl (fun acc x => acc + f x) a = a + (l.map f).sum := by
  intro l
  induction l with
  | nil => intro a; simp
  | cons x xs ih => intro a; simp [ih, add_assoc]

/-- `promiseAll` rejects whenever some element of the mapped list rejects. -/
theorem promiseAll_error_of_mem {α β : Type} (f : α → Except Unit β)
    (l : List α) (x : α) (hx : x ∈ l) (hf : f x = Except.error ()) :
    promiseAll (l.map f) = Except.error () := by
  induction l with
  | nil => cases hx
  | cons y ys ih =>
    rcases List.mem_cons.mp hx with hxy | hmem
    · subst hxy
      simp [promiseAll, hf]
    · cases hfy : f y with
      | error e => cases e; simp [promiseAll, hfy]
      | ok b => simp [promiseAll, hfy, ih hmem]



/-- Generalised evaluation of the `subtotal` fold: with any seed, the fold
adds the sum of each detail's contribution (price times the quantity of the
first matching cart item, or zero). -/
theorem subtotal_foldl_eq (cart : List CartItem) :
    ∀ (cosmeticDetails : List Cosmetic) (a : ℚ),
      cosmeticDetails.foldl
        (fun acc cosmetic =>
          match cart.find? (fun item => item.cosmetic_id == cosmetic.id) with
          | some cartItem => acc + cosmetic.price * cartItem.quantity
          | none => acc + 0) a
      = a + (cosmeticDetails.map (fun cosmetic =>
          match cart.find? (fun item => item.cosmetic_id == cosmetic.id) with
          | some cartItem => cosmetic.price * cartItem.quantity
          | none => (0 : ℚ))).sum := by
  intro cosmeticDetails
  induction cosmeticDetails with
  | nil => intro a; simp
  | cons c cs ih =>
    intro a
    rw [List.foldl_cons, List.map_cons, List.sum_cons]
    rcases h : cart.find? (fun item => item.cosmetic_id == c.id) with _ | item <;>
      rw [h] <;> dsimp only <;> rw [ih] <;> ring

/-- C1: for every cart and every list of fetched details, `subtotal` is the
sum over fetched details of (detail price × quantity of the first cart item
whose cosmetic_id equals the detail's id), a detail with no matching cart
item contributing 0 (and cart items with no matching detail not appearing
at all); `totalQuantity` is the sum of the quantity field over all cart
items, independent of the details. -/
theorem subtotal_totalQuantity_spec (cart : List CartItem)
    (cosmeticDetails : List Cosmetic) :
    subtotal cart cosmeticDetails =
      (cosmeticDetails.map (fun cosmetic =>
        match cart.find? (fun item => item.cosmetic_id == cosmetic.id) with
        | some cartItem => cosmetic.price * cartItem.quantity
        | none => (0 : ℚ))).sum ∧
    totalQuantity cart = (cart.map CartItem.quantity).sum := by
  constructor
  · unfold subtotal
    rw [subtotal_foldl_eq, zero_add]
  · unfold totalQuantity
    rw [foldl_add_map CartItem.quantity cart 0, zero_add]

/-- C2: `tax` is `subtotal` times the fixed rate 11/100, with no rounding,
and `total` is exactly `subtotal + tax`; on the spec's worked example
(cart item ⟨1,"x",2⟩, detail of id 1 and price 100000) this gives
subtotal 200000, totalQuantity 2, tax 22000 and total 222000. -/
theorem tax_total_spec :
    (∀ (cart : List CartItem) (cosmeticDetails : List Cosmetic),
      tax cart cosmeticDetails = subtotal cart cosmeticDetails * (11 / 100 : ℚ) ∧
      total cart cosmeticDetails = subtotal cart cosmeticDetails + tax cart cosmeticDetails) ∧
    subtotal exampleCart [exampleCosmetic] = 200000 ∧
    totalQuantity exampleCart = 2 ∧
    tax exampleCart [exampleCosmetic] = 22000 ∧
    total exampleCart [exampleCosmetic] = 222000 := by
  refine ⟨fun cart cosmeticDetails => ⟨?_, rfl⟩, ?_, ?_, ?_, ?_⟩
  · unfold tax TAX_RATE; norm_num
  · norm_num [subtotal, exampleCart, exampleCosmetic, List.find?]
  · decide
  · norm_num [tax, TAX_RATE, subtotal, exampleCart, exampleCosmetic, List.find?]
  · norm_num [total, tax, TAX_RATE, subtotal, exampleCart, exampleCosmetic, List.find?]

/-- C3: when the transaction-creation request resolves with status 200 or
201 and the body carries a transaction id and an email, the submit handler
removes both storage keys, resets the submission form data to
`{proof: none, cosmetic_ids: []}`, and navigates to
`/booking-finished?trx_id=<id>&email=<email>`. -/
theorem paymentSubmit_success
    (post : List (String × FormValue) → Except Unit PostResponse)
    (s : PaymentState) (response : PostResponse)
    (trxId eml : String) (f : File)
    (hproof : s.formData.proof = some f)
    (hpost : post (buildSubmissionData s.formData s.bookingData) = Except.ok response)
    (hstatus : response.status = 200 ∨ response.status = 201)
    (htrx : response.data.booking_trx_id = some trxId)
    (heml : response.data.email = some eml) :
    (PaymentPage.handleSubmit post s).storage.cart = none ∧
    (PaymentPage.handleSubmit post s).storage.bookingData = none ∧
    (PaymentPage.handleSubmit post s).formData = ⟨none, []⟩ ∧
    (PaymentPage.handleSubmit post s).navigation =
      some ("/booking-finished?trx_id=" ++ trxId ++ "&email=" ++ eml) := by
  have hval : paymentSchema_safeParse s.formData = Except.ok s.formData := by
    unfold paymentSchema_safeParse
    rw [hproof]
  unfold PaymentPage.handleSubmit
  rw [hval]
  dsimp only
  rw [hpost]
  dsimp only
  rcases hstatus with h | h <;>
    simp [h, htrx, heml, jsString]

/-- C3 witness: the stub response `{data: {booking_trx_id: "TRX1", email:
"a@b.com"}}` clears both keys, resets the form and navigates to
`/booking-finished?trx_id=TRX1&email=a@b.com`. -/
theorem paymentSubmit_success_witness :
    (PaymentPage.handleSubmit
        (fun _ => Except.ok ⟨200, ⟨some "TRX1", some "a@b.com"⟩⟩)
        examplePaymentState).storage.cart = none ∧
    (PaymentPage.handleSubmit
        (fun _ => Except.ok ⟨200, ⟨some "TRX1", some "a@b.com"⟩⟩)
        examplePaymentState).storage.bookingData = none ∧
    (PaymentPage.handleSubmit
        (fun _ => Except.ok ⟨200, ⟨some "TRX1", some "a@b.com"⟩⟩)
        examplePaymentState).formData = ⟨none, []⟩ ∧
    (PaymentPage.handleSubmit
        (fun _ => Except.ok ⟨200, ⟨some "TRX1", some "a@b.com"⟩⟩)
        examplePaymentState).navigation =
      some ("/booking-finished?trx_id=" ++ "TRX1" ++ "&email=" ++ "a@b.com") :=
  paymentSubmit_success
    (fun _ => Except.ok ⟨200, ⟨some "TRX1", some "a@b.com"⟩⟩)
    examplePaymentState ⟨200, ⟨some "TRX1", some "a@b.com"⟩⟩
    "TRX1" "a@b.com" exampleFile rfl rfl (Or.inl rfl) rfl rfl

/-- C4: on a 200 response whose body lacks `booking_trx_id`, the handler
does not fail: it still clears both storage keys, still reports success,
and navigates to `/booking-finished?trx_id=undefined&email=...`,
contradicting the specified transition to a failed state. -/
theorem paymentSubmit_missingTrxId_divergence :
    (PaymentPage.handleSubmit
        (fun _ => Except.ok ⟨200, ⟨none, some "a@b.com"⟩⟩)
        examplePaymentState).storage = ⟨none, none⟩ ∧
    (PaymentPage.handleSubmit
        (fun _ => Except.ok ⟨200, ⟨none, some "a@b.com"⟩⟩)
        examplePaymentState).navigation =
      some "/booking-finished?trx_id=undefined&email=a@b.com" ∧
    (PaymentPage.handleSubmit
        (fun _ => Except.ok ⟨200, ⟨none, some "a@b.com"⟩⟩)
        examplePaymentState).successMessage =
      some "Payment proof uploaded successfully" := by
  decide

/-- C10: when the transaction-creation request rejects, the submit handler
leaves the chosen proof file and cosmetic_ids (the whole form data), both
storage keys, and every other piece of page state unchanged, except that
the field-error list is set to empty. -/
theorem paymentSubmit_networkFailure_preservesState
    (post : List (String × FormValue) → Except Unit PostResponse)
    (s : PaymentState) (f : File)
    (hproof : s.formData.proof = some f)
    (hpost : post (buildSubmissionData s.formData s.bookingData) = Except.error ()) :
    (PaymentPage.handleSubmit post s).formData = s.formData ∧
    (PaymentPage.handleSubmit post s).storage = s.storage ∧
    (PaymentPage.handleSubmit post s).formErrors = [] ∧
    (PaymentPage.handleSubmit post s).navigation = s.navigation ∧
    (PaymentPage.handleSubmit post s).cosmeticDetails = s.cosmeticDetails ∧
    (PaymentPage.handleSubmit post s).bookingData = s.bookingData ∧
    (PaymentPage.handleSubmit post s).cart = s.cart := by
  have hval : paymentSchema_safeParse s.formData = Except.ok s.formData := by
    unfold paymentSchema_safeParse
    rw [hproof]
  unfold PaymentPage.handleSubmit
  rw [hval]
  dsimp only
  rw [hpost]
  simp

/-- C10 witness: a concrete rejected request leaves the example state's
form data and storage in place and empties the error list. -/
theorem paymentSubmit_networkFailure_preservesState_witness :
    (PaymentPage.handleSubmit (fun _ => Except.error ())
        examplePaymentState).formData = examplePaymentState.formData ∧
    (PaymentPage.handleSubmit (fun _ => Except.error ())
        examplePaymentState).storage = examplePaymentState.storage ∧
    (PaymentPage.handleSubmit (fun _ => Except.error ())
        examplePaymentState).formErrors = [] ∧
    (PaymentPage.handleSubmit (fun _ => Except.error ())
        examplePaymentState).navigation = examplePaymentState.navigation ∧
    (PaymentPage.handleSubmit (fun _ => Except.error ())
        examplePaymentState).cosmeticDetails = examplePaymentState.cosmeticDetails ∧
    (PaymentPage.handleSubmit (fun _ => Except.error ())
        examplePaymentState).bookingData = examplePaymentState.bookingData ∧
    (PaymentPage.handleSubmit (fun _ => Except.error ())
        examplePaymentState).cart = examplePaymentState.cart :=
  paymentSubmit_networkFailure_preservesState (fun _ => Except.error ())
    examplePaymentState exampleFile rfl rfl

/-- A found order payload used by concrete lookup scenarios. -/
def exampleBookingDetails : BookingDetails := ⟨1, "TRX1", "a@b.com"⟩

/-- C5 counterexample: for a validated query, a rejected lookup with a 500
response and a plain network error (no response) both leave the navigation
untouched — no results view carrying notFound is reached, contrary to the
claim that any failure navigates with a null payload and notFound true. -/
theorem orderLookup_nonNotFoundFailure_noNavigation :
    (MyOrdersPage.handleSubmit (fun _ => Except.error ⟨some ⟨500⟩⟩)
        exampleOrdersState).navigation = none ∧
    (MyOrdersPage.handleSubmit (fun _ => Except.error ⟨none⟩)
        exampleOrdersState).navigation = none := by
  decide

/-- C5 amended: for a validated query the handler always ends with loading
false and never throws; a resolved 200 with a body navigates to the found
results view with the payload; a resolved response that is not a 200 with a
body navigates to the not-found results view; a rejected request carrying a
404 response navigates to the not-found results view; any other rejection
(other statuses, or no response at all) leaves the navigation unchanged. -/
theorem orderLookup_outcomes
    (post : OrderQuery → Except AxiosError CheckResponse) (s : OrdersState)
    (hval : viewBookingSchema_safeParse s.formData = Except.ok s.formData) :
    (MyOrdersPage.handleSubmit post s).loading = false ∧
    (∀ response, post s.formData = Except.ok response →
      response.status = 200 → response.data.isSome = true →
      (MyOrdersPage.handleSubmit post s).navigation =
        some ⟨"/my-booking", response.data, false⟩) ∧
    (∀ response, post s.formData = Except.ok response →
      (response.status ≠ 200 ∨ response.data = none) →
      (MyOrdersPage.handleSubmit post s).navigation =
        some ⟨"/my-booking", none, true⟩) ∧
    (∀ err, post s.formData = Except.error err →
      err.response = some ⟨404⟩ →
      (MyOrdersPage.handleSubmit post s).navigation =
        some ⟨"/my-booking", none, true⟩) ∧
    (∀ err, post s.formData = Except.error err →
      (∀ errResponse, err.response = some errResponse → errResponse.status ≠ 404) →
      (MyOrdersPage.handleSubmit post s).navigation = s.navigation) := by
  unfold MyOrdersPage.handleSubmit
  rw [hval]
  dsimp only
  refine ⟨?_, ?_, ?_, ?_, ?_⟩
  · rfl
  · intro response hpost h200 hbody
    rw [hpost]
    dsimp only
    rw [if_pos]
    simp [h200, hbody]
  · intro response hpost hother
    rw [hpost]
    dsimp only
    rw [if_neg]
    intro hcond
    rcases hother with h | h
    · exact h (by simpa using (Bool.and_eq_true_iff.mp hcond).1)
    · have := (Bool.and_eq_true_iff.mp hcond).2
      rw [h] at this
      simp at this
  · intro err hpost h404
    rw [hpost]
    dsimp only
    rw [h404]
    dsimp only
    simp
  · intro err hpost hother
    rw [hpost]
    dsimp only
    rcases herr : err.response with _ | er
    · rfl
    · dsimp only
      have hne404 : ¬((er.status == 404) = true) := by
        simp [hother er herr]
      rw [if_neg hne404]

/-- C5 witness: with a stub that resolves 200 carrying a payload, the
validated example query navigates to the found results view. -/
theorem orderLookup_outcomes_witness :
    (MyOrdersPage.handleSubmit (fun _ => Except.ok ⟨200, some exampleBookingDetails⟩)
        exampleOrdersState).navigation =
      some ⟨"/my-booking", some exampleBookingDetails, false⟩ :=
  (orderLookup_outcomes (fun _ => Except.ok ⟨200, some exampleBookingDetails⟩)
      exampleOrdersState rfl).2.1
    ⟨200, some exampleBookingDetails⟩ rfl rfl rfl

/-- C6 counterexample: with a non-empty cart and an absent booking draft,
checkout is not routed away (no navigation home), the detail fetch is
issued and the page proceeds — the booking draft's absence is tolerated,
contrary to the claim that it routes the user away. -/
theorem checkoutEntry_missingDraft_proceeds :
    (pageLoad (fun _ => Except.ok exampleCosmetic)
        ⟨some exampleCart, none⟩).navigation = none ∧
    (pageLoad (fun _ => Except.ok exampleCosmetic)
        ⟨some exampleCart, none⟩).requests = [PaymentRequest.getCosmetic "x"] ∧
    (pageLoad (fun _ => Except.ok exampleCosmetic)
        ⟨some exampleCart, none⟩).cosmeticDetails = [exampleCosmetic] ∧
    (pageLoad (fun _ => Except.ok exampleCosmetic)
        ⟨some exampleCart, none⟩).bookingData = none := by
  decide

/-- C6 amended: on entering checkout the user is routed home with no fetch
issued exactly when the cart key is absent or the stored cart is empty;
whenever the cart is a non-empty list, checkout proceeds — one detail
request per cart item and no navigation home — regardless of whether the
booking draft is present. -/
theorem checkoutEntry_guard (fetch : String → Except Unit Cosmetic)
    (storage : Storage) :
    ((storage.cart = none ∨ storage.cart = some []) →
      (pageLoad fetch storage).navigation = some "/" ∧
      (pageLoad fetch storage).requests = []) ∧
    (∀ cartItems, storage.cart = some cartItems → cartItems ≠ [] →
      (pageLoad fetch storage).navigation = none ∧
      (pageLoad fetch storage).requests =
        cartItems.map (fun item => PaymentRequest.getCosmetic item.slug)) := by
  obtain ⟨c, b⟩ := storage
  constructor
  · rintro (hc | hc) <;> replace hc : c = _ := hc <;> subst hc <;>
      cases b <;> exact ⟨rfl, rfl⟩
  · intro cartItems hsome hne
    replace hsome : c = some cartItems := hsome
    subst hsome
    have hlen : (cartItems.length == 0) = false := by
      cases cartItems with
      | nil => exact absurd rfl hne
      | cons x xs => rfl
    cases b <;>
      simp only [pageLoad, initialPaymentState, hlen] <;>
      unfold fetchCosmeticDetails <;>
      cases hp : promiseAll (cartItems.map fun item => fetch item.slug) <;>
        simp [hp]

/-- C6 witness: an absent cart key routes home and issues no request. -/
theorem checkoutEntry_guard_witness :
    (pageLoad (fun _ => Except.ok exampleCosmetic)
        ⟨none, some exampleBooking⟩).navigation = some "/" ∧
    (pageLoad (fun _ => Except.ok exampleCosmetic)
        ⟨none, some exampleBooking⟩).requests = [] :=
  (checkoutEntry_guard (fun _ => Except.ok exampleCosmetic)
      ⟨none, some exampleBooking⟩).1 (Or.inl rfl)

/-- C7: the detail fetch issues exactly one request per cart item, and if
any single item's request fails the whole fetch fails: the page error is
set, the details list and the form data (hence its cosmetic_ids) are left
exactly as they were — empty at page entry — loading stops, and no
navigation happens. -/
theorem fetchDetails_singleFailure
    (fetch : String → Except Unit Cosmetic) (cartItems : List CartItem)
    (s : PaymentState) (item : CartItem)
    (hmem : item ∈ cartItems) (hfail : fetch item.slug = Except.error ()) :
    (fetchCosmeticDetails fetch cartItems s).error =
      some "Failed to fetch cosmetic details" ∧
    (fetchCosmeticDetails fetch cartItems s).cosmeticDetails = s.cosmeticDetails ∧
    (fetchCosmeticDetails fetch cartItems s).formData = s.formData ∧
    (fetchCosmeticDetails fetch cartItems s).loading = false ∧
    (fetchCosmeticDetails fetch cartItems s).navigation = s.navigation ∧
    (fetchCosmeticDetails fetch cartItems s).requests =
      s.requests ++ cartItems.map (fun i => PaymentRequest.getCosmetic i.slug) := by
  have hp : promiseAll (cartItems.map (fun i => fetch i.slug)) = Except.error () :=
    promiseAll_error_of_mem (fun it => fetch it.slug) cartItems item hmem hfail
  unfold fetchCosmeticDetails
  rw [hp]
  simp

/-- C7 witness: with two cart items of which the second item's request
fails, the fetch ends in the error state with untouched details and one
issued request per item. -/
theorem fetchDetails_singleFailure_witness :
    (fetchCosmeticDetails
        (fun sl => if sl == "bad" then Except.error () else Except.ok exampleCosmetic)
        [⟨1, "x", 2⟩, ⟨2, "bad", 1⟩]
        (initialPaymentState ⟨some [⟨1, "x", 2⟩, ⟨2, "bad", 1⟩], none⟩)).error =
      some "Failed to fetch cosmetic details" ∧
    (fetchCosmeticDetails
        (fun sl => if sl == "bad" then Except.error () else Except.ok exampleCosmetic)
        [⟨1, "x", 2⟩, ⟨2, "bad", 1⟩]
        (initialPaymentState ⟨some [⟨1, "x", 2⟩, ⟨2, "bad", 1⟩], none⟩)).cosmeticDetails =
      (initialPaymentState ⟨some [⟨1, "x", 2⟩, ⟨2, "bad", 1⟩], none⟩).cosmeticDetails ∧
    (fetchCosmeticDetails
        (fun sl => if sl == "bad" then Except.error () else Except.ok exampleCosmetic)
        [⟨1, "x", 2⟩, ⟨2, "bad", 1⟩]
        (initialPaymentState ⟨some [⟨1, "x", 2⟩, ⟨2, "bad", 1⟩], none⟩)).formData =
      (initialPaymentState ⟨some [⟨1, "x", 2⟩, ⟨2, "bad", 1⟩], none⟩).formData ∧
    (fetchCosmeticDetails
        (fun sl => if sl == "bad" then Except.error () else Except.ok exampleCosmetic)
        [⟨1, "x", 2⟩, ⟨2, "bad", 1⟩]
        (initialPaymentState ⟨some [⟨1, "x", 2⟩, ⟨2, "bad", 1⟩], none⟩)).loading = false ∧
    (fetchCosmeticDetails
        (fun sl => if sl == "bad" then Except.error () else Except.ok exampleCosmetic)
        [⟨1, "x", 2⟩, ⟨2, "bad", 1⟩]
        (initialPaymentState ⟨some [⟨1, "x", 2⟩, ⟨2, "bad", 1⟩], none⟩)).navigation =
      (initialPaymentState ⟨some [⟨1, "x", 2⟩, ⟨2, "bad", 1⟩], none⟩).navigation ∧
    (fetchCosmeticDetails
        (fun sl => if sl == "bad" then Except.error () else Except.ok exampleCosmetic)
        [⟨1, "x", 2⟩, ⟨2, "bad", 1⟩]
        (initialPaymentState ⟨some [⟨1, "x", 2⟩, ⟨2, "bad", 1⟩], none⟩)).requests =
      (initialPaymentState ⟨some [⟨1, "x", 2⟩, ⟨2, "bad", 1⟩], none⟩).requests ++
        ([⟨1, "x", 2⟩, ⟨2, "bad", 1⟩] : List CartItem).map
          (fun i => PaymentRequest.getCosmetic i.slug) :=
  fetchDetails_singleFailure
    (fun sl => if sl == "bad" then Except.error () else Except.ok exampleCosmetic)
    [⟨1, "x", 2⟩, ⟨2, "bad", 1⟩]
    (initialPaymentState ⟨some [⟨1, "x", 2⟩, ⟨2, "bad", 1⟩], none⟩)
    ⟨2, "bad", 1⟩ (by decide) rfl

/-- An order-lookup state whose email fails the syntactic check. -/
def invalidOrdersState : OrdersState :=
  { formData := ⟨"not-an-email", "TRX1"⟩
    formErrors := []
    loading := false
    navigation := none
    requests := [] }

/-- C8: when validation fails, neither submit handler makes a network call
and the only state change is storing the validation issues — the whole
state record is the old one with only `formErrors` replaced, so storage,
requests, navigation and the rest are untouched; and a payment form with a
proof file present passes validation. -/
theorem validationFailure_noSideEffects
    (post : List (String × FormValue) → Except Unit PostResponse)
    (post' : OrderQuery → Except AxiosError CheckResponse)
    (s : PaymentState) (issues : List ZodIssue)
    (hs : paymentSchema_safeParse s.formData = Except.error issues)
    (t : OrdersState) (issues' : List ZodIssue)
    (ht : viewBookingSchema_safeParse t.formData = Except.error issues') :
    PaymentPage.handleSubmit post s = { s with formErrors := issues } ∧
    MyOrdersPage.handleSubmit post' t = { t with formErrors := issues' } ∧
    (∀ (fd : FormData) (f : File), fd.proof = some f →
      paymentSchema_safeParse fd = Except.ok fd) := by
  refine ⟨?_, ?_, ?_⟩
  · unfold PaymentPage.handleSubmit
    rw [hs]
  · unfold MyOrdersPage.handleSubmit
    rw [ht]
  · intro fd f hf
    unfold paymentSchema_safeParse
    rw [hf]

/-- C8 witness: a submission without a proof file and a lookup with a
malformed email are both rejected by validation with only the error list
changed; no request is issued. -/
theorem validationFailure_noSideEffects_witness :
    PaymentPage.handleSubmit
        (fun _ => Except.ok ⟨200, ⟨some "TRX1", some "a@b.com"⟩⟩)
        (initialPaymentState ⟨some exampleCart, some exampleBooking⟩) =
      { initialPaymentState ⟨some exampleCart, some exampleBooking⟩ with
        formErrors := [⟨["proof"], "Proof of payment is required"⟩] } ∧
    MyOrdersPage.handleSubmit (fun _ => Except.error ⟨some ⟨404⟩⟩)
        invalidOrdersState =
      { invalidOrdersState with
        formErrors := [⟨["email"], "Email is not valid"⟩] } :=
  have h := validationFailure_noSideEffects
    (fun _ => Except.ok ⟨200, ⟨some "TRX1", some "a@b.com"⟩⟩)
    (fun _ => Except.error ⟨some ⟨404⟩⟩)
    (initialPaymentState ⟨some exampleCart, some exampleBooking⟩)
    [⟨["proof"], "Proof of payment is required"⟩] rfl
    invalidOrdersState
    [⟨["email"], "Email is not valid"⟩] rfl
  ⟨h.1, h.2.1⟩

/-- C9: evaluating the multipart payload builder on a draft whose declared
postal-code field `post_codes` holds "12345" shows every contact field
carried verbatim except `post_code`, which carries the string "undefined"
(the source reads the undeclared `post_code` property), with the proof
part first, the indexed cosmetic id/quantity pairs as strings last, and
all contact fields omitted when no draft is present. -/
theorem submissionPayload_postCode_divergence :
    buildSubmissionData ⟨some exampleFile, [⟨1, 2⟩]⟩ (some exampleBooking) =
      [("proof", FormValue.file exampleFile),
       ("name", FormValue.text "A"),
       ("email", FormValue.text "a@b.com"),
       ("phone", FormValue.text "0812"),
       ("address", FormValue.text "Street 1"),
       ("city", FormValue.text "Jakarta"),
       ("post_code", FormValue.text "undefined"),
       ("cosmetic_ids[0][id]", FormValue.text "1"),
       ("cosmetic_ids[0][quantity]", FormValue.text "2")] ∧
    exampleBooking.post_codes = "12345" ∧
    buildSubmissionData ⟨some exampleFile, [⟨1, 2⟩]⟩ none =
      [("proof", FormValue.file exampleFile),
       ("cosmetic_ids[0][id]", FormValue.text "1"),
       ("cosmetic_ids[0][quantity]", FormValue.text "2")] := by
  decide

end ShaynaCosmetics
